import Mathlib

/-!
Shallow embedding of the qhub-cli credential/session lifecycle service
(src/auth/service.rs, src/db/models.rs) and of the TUI request
orchestrator / conversation window (src/tui/app.rs).

External library collaborators (the argon2, jsonwebtoken, sha2 and base64
crates) are modelled as concrete deterministic functions, following the
contracts stated in the specification; everything else is translated
directly from the Rust source.  Environmental inputs of the source
(current time, random salts, fresh UUIDs, the JWT secret, the configured
token TTL) are explicit parameters.
-/

namespace QHub

/-- `str::contains(char)`: the string has an occurrence of the
character.  (List-based so that it evaluates by kernel reduction.) -/
def strContainsChar (s : String) (c : Char) : Bool :=
  s.data.any (fun a => a == c)

/-- `str::trim`: drop leading and trailing whitespace. -/
def strTrim (s : String) : String :=
  ⟨((s.data.dropWhile Char.isWhitespace).reverse.dropWhile Char.isWhitespace).reverse⟩

/-- Accumulator loop of `str::split_whitespace`. -/
def splitWsAux : List Char → List Char → List String
  | [], acc => if acc.isEmpty then [] else [⟨acc.reverse⟩]
  | c :: cs, acc =>
    if c.isWhitespace then
      if acc.isEmpty then splitWsAux cs []
      else (⟨acc.reverse⟩ : String) :: splitWsAux cs []
    else splitWsAux cs (c :: acc)

/-- `str::split_whitespace().collect()`: the nonempty
whitespace-separated words. -/
def splitWhitespace (l : List Char) : List String :=
  splitWsAux l []

/-- `str::to_lowercase` (on the ASCII command words it is applied to). -/
def strToLower (s : String) : String :=
  ⟨s.data.map Char.toLower⟩

/-- Does the first list start with the second? -/
def listStartsWith : List Char → List Char → Bool
  | _, [] => true
  | [], _ :: _ => false
  | a :: as, b :: bs => a == b && listStartsWith as bs

/-- Does the list have the pattern as a contiguous sublist? -/
def containsSubAux (pat : List Char) : List Char → Bool
  | [] => listStartsWith [] pat
  | c :: cs => listStartsWith (c :: cs) pat || containsSubAux pat cs

/-- `str::contains(&str)`, used by the advisory error classification. -/
def containsSubstr (s pat : String) : Bool :=
  containsSubAux pat.data s.data

/-! ## Password hashing (AuthService::hash_password / verify_password) -/

/-- Modelled from the spec: the Argon2 memory-hard digest from the
`argon2` crate (an external collaborator), a deterministic function of
the salt and the password. -/
def argon2Digest (salt password : String) : String :=
  "argon2(" ++ salt ++ "," ++ password ++ ")"

/-- The parsed form of a PHC-encoded password hash string
(`$argon2id$...$salt$digest`); the PHC encoding is injective, so
equality of `PasswordHashStr` values mirrors equality of the encoded
strings the Rust code passes around. -/
structure PasswordHashStr where
  alg : String
  salt : String
  digest : String
deriving DecidableEq, Repr

/-- `AuthService::hash_password`: salts and digests the password; the
random `SaltString` from `OsRng` is the explicit `salt` parameter. -/
def hash_password (salt password : String) : PasswordHashStr :=
  { alg := "argon2id", salt := salt, digest := argon2Digest salt password }

/-- `AuthService::verify_password`: decodes the stored hash, recomputes
the digest with the stored salt and compares. -/
def verify_password (password : String) (h : PasswordHashStr) : Bool :=
  argon2Digest h.salt password == h.digest

/-! ## JWT tokens (Claims, generate_token, verify_token, hash_token) -/

/-- The signed payload (struct `Claims` in service.rs). -/
structure Claims where
  sub : String
  email : String
  tier : String
  exp : Int
  iat : Int
deriving DecidableEq, Repr

/-- Modelled from the spec: the HS256 signature over the serialized
claims, from the `jsonwebtoken` crate (an external collaborator);
deterministic in the secret and the claims. -/
def hs256Sign (secret : String) (c : Claims) : String :=
  "hs256(" ++ secret ++ ";" ++ c.sub ++ ";" ++ c.email ++ ";" ++ c.tier
    ++ ";" ++ toString c.exp ++ ";" ++ toString c.iat ++ ")"

/-- A JWT in parsed form: its claims and its signature part. -/
structure Token where
  claims : Claims
  sig : String
deriving DecidableEq, Repr

/-- The compact serialization of a token — the raw token string the
client holds. -/
def tokenSerialize (t : Token) : String :=
  t.claims.sub ++ "." ++ t.claims.email ++ "." ++ t.claims.tier ++ "."
    ++ toString t.claims.exp ++ "." ++ toString t.claims.iat ++ "." ++ t.sig

/-- Error kinds of the auth service; each carries the user-visible
message of the corresponding `anyhow` error in service.rs. -/
inductive AuthError where
  | validationError
  | conflictError
  | invalidCredentials
  | accountDeactivated
  | expiredOrInvalidToken
  | invalidOrExpiredSession
  | storageError
deriving DecidableEq, Repr

/-- The user-visible message of each error kind (the `anyhow!` strings
of service.rs). -/
def AuthError.message : AuthError → String
  | .validationError => "Invalid email format"
  | .conflictError => "Email already registered"
  | .invalidCredentials => "Invalid email or password"
  | .accountDeactivated => "Account is deactivated"
  | .expiredOrInvalidToken => "Invalid or expired token"
  | .invalidOrExpiredSession => "Invalid or expired session"
  | .storageError => "Storage error"

/-- `User` row (db/models.rs); ids are strings (UUID as TEXT). -/
structure User where
  id : String
  email : String
  username : Option String
  display_name : Option String
  password_hash : Option PasswordHashStr
  tier : String
  created_at : Int
  updated_at : Int
  last_login_at : Option Int
  is_active : Bool
  email_verified : Bool
deriving DecidableEq, Repr

/-- `user_sessions` row (db/models.rs). -/
structure UserSession where
  id : String
  user_id : String
  token_hash : String
  device_info : Option String
  ip_address : Option String
  expires_at : Int
  created_at : Int
  last_active_at : Int
deriving DecidableEq, Repr

/-- The persistent store: the `users` and `user_sessions` tables. -/
structure Db where
  users : List User
  sessions : List UserSession
deriving DecidableEq, Repr

/-- `CreateUserRequest` (db/models.rs). -/
structure CreateUserRequest where
  email : String
  password : String
  username : Option String
deriving DecidableEq, Repr

/-- `LoginRequest` (db/models.rs). -/
structure LoginRequest where
  email : String
  password : String
deriving DecidableEq, Repr

/-- `AuthResponse` (db/models.rs): the raw token, the user row and the
expiry timestamp. -/
structure AuthResponse where
  token : Token
  user : User
  expires_at : Int
deriving DecidableEq, Repr

/-- Default token TTL (const `TOKEN_EXPIRY_HOURS` in service.rs). -/
def TOKEN_EXPIRY_HOURS : Int := 24

/-- `AuthService::generate_token`: builds claims from the user's
id/email/tier with `iat = now`, `exp = now + expiryHours` hours, and
signs them; `expiryHours` is the env-configurable TTL. -/
def generate_token (secret : String) (expiryHours : Int) (now : Int)
    (user : User) : Token × Int :=
  let exp := now + expiryHours * 3600
  let claims : Claims :=
    { sub := user.id, email := user.email, tier := user.tier
      exp := exp, iat := now }
  ({ claims := claims, sig := hs256Sign secret claims }, exp)

/-- `AuthService::verify_token`: validates the signature and the expiry
claim; per the spec's contract for the signing library, verification
fails exactly when the signature is invalid or `exp <= now`. -/
def verify_token (secret : String) (now : Int) (t : Token) :
    Except AuthError Claims :=
  if t.sig = hs256Sign secret t.claims ∧ now < t.claims.exp then
    .ok t.claims
  else
    .error .expiredOrInvalidToken

/-- Modelled from the spec: base64-encoded SHA-256 from the `sha2` and
`base64` crates (external collaborators) — a deterministic one-way
function of its input, whose output is never the input itself. -/
def sha256Base64 (s : String) : String :=
  "b64sha256(" ++ s ++ ")"

/-- `AuthService::hash_token`: the one-way hash of the raw token string
that is stored in place of the token. -/
def hash_token (t : Token) : String :=
  sha256Base64 (tokenSerialize t)

/-- `AuthService::register`.  Environmental inputs are explicit: `salt`
(the random Argon2 salt), `userId`/`sessionId` (fresh UUIDs), `now`.
The inserted user row is completed by the schema's column defaults
(modelled from the spec, the schema itself is not under src/): accounts
are created active and unverified, on the `free` tier. -/
def register (secret : String) (expiryHours : Int) (now : Int)
    (salt userId sessionId : String) (db : Db) (req : CreateUserRequest) :
    Except AuthError (AuthResponse × Db) :=
  if !(strContainsChar req.email '@') then
    .error .validationError
  else if (db.users.find? (fun u => u.email == req.email)).isSome then
    .error .conflictError
  else
    let ph := hash_password salt req.password
    let user : User :=
      { id := userId, email := req.email, username := req.username
        display_name := none, password_hash := some ph
        tier := "free", created_at := now, updated_at := now
        last_login_at := none, is_active := true, email_verified := false }
    let gt := generate_token secret expiryHours now user
    let th := hash_token gt.1
    let session : UserSession :=
      { id := sessionId, user_id := userId, token_hash := th
        device_info := none, ip_address := none
        expires_at := gt.2, created_at := now, last_active_at := now }
    .ok ({ token := gt.1, user := user, expires_at := gt.2 },
         { users := db.users ++ [user], sessions := db.sessions ++ [session] })

/-- `AuthService::login`.  Checks follow the source order: fetch user by
email (else InvalidCredentials), active check (else AccountDeactivated),
password-hash presence and verification (else InvalidCredentials); then
updates `last_login_at`, issues a token and inserts a session row.  The
returned `AuthResponse` carries the user row as fetched (before the
`last_login_at` update), as in the source. -/
def login (secret : String) (expiryHours : Int) (now : Int)
    (sessionId : String) (db : Db) (req : LoginRequest) :
    Except AuthError (AuthResponse × Db) :=
  match db.users.find? (fun u => u.email == req.email) with
  | none => .error .invalidCredentials
  | some user =>
    if !user.is_active then
      .error .accountDeactivated
    else
      match user.password_hash with
      | none => .error .invalidCredentials
      | some ph =>
        if !(verify_password req.password ph) then
          .error .invalidCredentials
        else
          let users' := db.users.map (fun u =>
            if u.id == user.id then { u with last_login_at := some now } else u)
          let gt := generate_token secret expiryHours now user
          let th := hash_token gt.1
          let session : UserSession :=
            { id := sessionId, user_id := user.id, token_hash := th
              device_info := none, ip_address := none
              expires_at := gt.2, created_at := now, last_active_at := now }
          .ok ({ token := gt.1, user := user, expires_at := gt.2 },
               { users := users', sessions := db.sessions ++ [session] })

/-- `AuthService::verify_session`: verifies the token itself, then looks
up an unexpired session row by the token's hash (defense in depth),
touches its `last_active_at`, and finally fetches the current user row
by the claims' subject (a missing row surfaces as a storage error). -/
def verify_session (secret : String) (now : Int) (db : Db) (t : Token) :
    Except AuthError (User × Db) :=
  match verify_token secret now t with
  | .error e => .error e
  | .ok claims =>
    let th := hash_token t
    match db.sessions.find? (fun s => s.token_hash == th && decide (now < s.expires_at)) with
    | none => .error .invalidOrExpiredSession
    | some session =>
      let sessions' := db.sessions.map (fun s =>
        if s.id == session.id then { s with last_active_at := now } else s)
      match db.users.find? (fun u => u.id == claims.sub) with
      | none => .error .storageError
      | some user => .ok (user, { db with sessions := sessions' })

/-- `AuthService::logout`: deletes every session row whose `token_hash`
matches the hash of the given token; idempotent. -/
def logout (db : Db) (t : Token) : Db :=
  { db with sessions := db.sessions.filter (fun s => !(s.token_hash == hash_token t)) }

/-- `AuthService::cleanup_expired_sessions`: bulk-deletes expired rows,
returning the new store and the number removed. -/
def cleanup_expired_sessions (now : Int) (db : Db) : Db × Nat :=
  let kept := db.sessions.filter (fun s => !(decide (s.expires_at < now)))
  ({ db with sessions := kept }, db.sessions.length - kept.length)

/-! ## TUI orchestrator (src/tui/app.rs)

The `App` state is modelled by the fields the orchestration logic reads
and writes: the conversation history, the loading gate, the two
single-slot mailboxes (`ai_response_rx` / `auth_response_rx`, modelled
by their `isSome`), the authenticated identity, and the input box.
Display messages are kept as their content strings. -/

/-- `ChatMessage` (api/deepseek.rs): role and content. -/
structure ChatMessage where
  role : String
  content : String
deriving DecidableEq, Repr

/-- `DeepSeekClient::get_system_prompt` (api/deepseek.rs); the content
is abbreviated to its first line, which does not affect any property
about the window. -/
def systemPrompt : ChatMessage :=
  { role := "system"
    content := "You are QHub, an AI assistant specialized in quantum computing." }

/-- `SlashCommand` (tui/app.rs). -/
inductive SlashCommand where
  | login (email password : String)
  | register (email username password : String)
  | logout
  | upgrade
  | help
  | quit
  | clear
  | status
  | unknown (s : String)
deriving DecidableEq, Repr

/-- `SlashCommand::parse` (tui/app.rs): trims, requires a leading `/`,
splits on whitespace, and matches the lowercased first word. -/
def parseSlash (input : String) : Option SlashCommand :=
  match (strTrim input).data with
  | '/' :: rest =>
    match splitWhitespace rest with
    | [] => none
    | cmd :: args =>
      let c := strToLower cmd
      some <|
        if c = "login" then
          match args with
          | email :: password :: _ => .login email password
          | _ => .unknown "login <email> <password>"
        else if c = "register" then
          match args with
          | email :: username :: password :: _ => .register email username password
          | _ => .unknown "register <email> <username> <password>"
        else if c = "logout" then .logout
        else if c = "upgrade" then .upgrade
        else if c = "help" ∨ c = "h" ∨ c = "?" then .help
        else if c = "quit" ∨ c = "q" ∨ c = "exit" then .quit
        else if c = "clear" ∨ c = "cls" then .clear
        else if c = "status" then .status
        else .unknown c
  | _ => none

/-- The orchestration-relevant state of `App` (tui/app.rs).
`ai_outstanding` / `auth_outstanding` model `ai_response_rx.is_some()` /
`auth_response_rx.is_some()`. -/
structure AppState where
  conversation_history : List ChatMessage
  messages : List String
  input : String
  is_loading : Bool
  ai_outstanding : Bool
  auth_outstanding : Bool
  user_email : Option String
  user_tier : String
  auth_service_available : Bool
  show_exit_animation : Bool
deriving DecidableEq, Repr

/-- The history-bounding step of `App::submit_input`: if the history
exceeds 21 entries, keep entry 0 (the system prompt) plus the most
recent 20 entries. -/
def trimHistory (hist : List ChatMessage) : List ChatMessage :=
  if 21 < hist.length then hist.take 1 ++ hist.drop (hist.length - 20)
  else hist

/-- `App::handle_slash_command` (tui/app.rs), restricted to the modelled
state; every branch ends by clearing the input box.  `Login`/`Register`
dispatch a background auth operation (set `is_loading`, install the auth
mailbox); `Logout` fires a background logout without a mailbox and
resets the identity; the rest only push display messages. -/
def handle_slash_command (s : AppState) (cmd : SlashCommand) : AppState :=
  match cmd with
  | .login _ _ =>
    if !s.auth_service_available then
      { s with
        messages := s.messages ++ ["Authentication service unavailable. Check DATABASE_URL."]
        input := "" }
    else
      { s with
        messages := s.messages ++ ["Logging in..."]
        is_loading := true
        auth_outstanding := true
        input := "" }
  | .register _ _ _ =>
    if !s.auth_service_available then
      { s with
        messages := s.messages ++ ["Authentication service unavailable. Check DATABASE_URL."]
        input := "" }
    else
      { s with
        messages := s.messages ++ ["Creating account..."]
        is_loading := true
        auth_outstanding := true
        input := "" }
  | .logout =>
    { s with
      user_email := none
      user_tier := "free"
      messages := s.messages ++ ["Logged out successfully"]
      input := "" }
  | .upgrade =>
    { s with messages := s.messages ++ ["Opening upgrade page in your browser..."], input := "" }
  | .help =>
    { s with messages := s.messages ++ ["help text"], input := "" }
  | .quit =>
    { s with show_exit_animation := true, input := "" }
  | .clear =>
    { s with messages := ["Chat cleared."], input := "" }
  | .status =>
    { s with messages := s.messages ++ ["status text"], input := "" }
  | .unknown c =>
    { s with
      messages := s.messages ++
        ["Unknown command or invalid syntax: /" ++ c ++ ". Type /help for available commands."]
      input := "" }

/-- `App::submit_input` (tui/app.rs).  An empty input or `is_loading`
is a full early return (nothing changes, the input box included); a
slash command is delegated; free text requires authentication (on
failure an error message is pushed and the input box is NOT cleared,
as in the source's early return), otherwise the user message is pushed,
the history trimmed, and a chat operation dispatched. -/
def submit_input (s : AppState) : AppState :=
  let input := strTrim s.input
  if input == "" || s.is_loading then s
  else
    match parseSlash input with
    | some cmd => handle_slash_command s cmd
    | none =>
      if s.user_email.isNone then
        { s with
          messages := s.messages ++
            ["Authentication required. Please /login or /register first."] }
      else
        { s with
          messages := s.messages ++ [input]
          conversation_history :=
            trimHistory (s.conversation_history ++ [{ role := "user", content := input }])
          is_loading := true
          ai_outstanding := true
          input := "" }

/-- The advisory error text mapping in `App::check_ai_response`. -/
def classifyAiError (error : String) : String :=
  if containsSubstr error "timeout" then
    "Request timed out. The AI service might be busy. Please try again."
  else if containsSubstr error "429" then
    "Rate limit reached. Please wait a moment before trying again."
  else if containsSubstr error "401" || containsSubstr error "403" then
    "Authentication failed. Please check your API key in CLOUDFLARE_AI_TOKEN environment variable."
  else if containsSubstr error "network" || containsSubstr error "connection" then
    "Network error. Please check your internet connection."
  else
    "AI service error: " ++ error

/-- The advisory error text mapping in `App::check_auth_response`. -/
def classifyAuthError (error : String) : String :=
  if containsSubstr error "already registered" then
    "Email is already registered. Try logging in instead."
  else if containsSubstr error "Invalid email or password" then
    "Invalid email or password. Please try again."
  else if containsSubstr error "Invalid email format" then
    "Invalid email format. Please use a valid email address."
  else if containsSubstr error "deactivated" then
    "Account is deactivated. Contact support for assistance."
  else
    "Authentication error: " ++ error

/-- Foreground events as observed by the tick loop: editing the input
box, pressing enter (`submit_input`), and `check_ai_response` /
`check_auth_response` observing a completed (or disconnected)
background operation.  A poll event when the corresponding mailbox is
absent is a no-op (`if let Some(rx)` in the source); `try_recv` can
yield a value only while a mailbox is installed. -/
inductive Ev where
  | setInput (x : String)
  | submit
  | aiOk (response : String)
  | aiErr (error : String)
  | aiDisconnected
  | authOk (token email tier : String)
  | authErr (error : String)
  | authDisconnected
deriving DecidableEq, Repr

/-- `App::check_ai_response`, success arm: append the assistant reply to
the history (the source does NOT re-trim here), clear the gate and the
mailbox. -/
def check_ai_ok (s : AppState) (response : String) : AppState :=
  if s.ai_outstanding then
    { s with
      conversation_history :=
        s.conversation_history ++ [{ role := "assistant", content := response }]
      messages := s.messages ++ [response]
      is_loading := false
      ai_outstanding := false }
  else s

/-- `App::check_ai_response`, error arm. -/
def check_ai_err (s : AppState) (error : String) : AppState :=
  if s.ai_outstanding then
    { s with
      messages := s.messages ++ [classifyAiError error]
      is_loading := false
      ai_outstanding := false }
  else s

/-- `App::check_ai_response`, disconnected arm. -/
def check_ai_disc (s : AppState) : AppState :=
  if s.ai_outstanding then
    { s with
      messages := s.messages ++ ["AI request failed unexpectedly. Please try again."]
      is_loading := false
      ai_outstanding := false }
  else s

/-- `App::check_auth_response`, success arm: persist the identity
(config save modelled as succeeding), clear the gate and the mailbox. -/
def check_auth_ok (s : AppState) (email tier : String) : AppState :=
  if s.auth_outstanding then
    { s with
      user_email := some email
      user_tier := tier
      messages := s.messages ++ ["Logged in successfully as " ++ email ++ " (" ++ tier ++ ")"]
      is_loading := false
      auth_outstanding := false }
  else s

/-- `App::check_auth_response`, error arm. -/
def check_auth_err (s : AppState) (error : String) : AppState :=
  if s.auth_outstanding then
    { s with
      messages := s.messages ++ [classifyAuthError error]
      is_loading := false
      auth_outstanding := false }
  else s

/-- `App::check_auth_response`, disconnected arm. -/
def check_auth_disc (s : AppState) : AppState :=
  if s.auth_outstanding then
    { s with
      messages := s.messages ++ ["Authentication request failed. Please try again."]
      is_loading := false
      auth_outstanding := false }
  else s

/-- One foreground step. -/
def step (s : AppState) : Ev → AppState
  | .setInput x => { s with input := x }
  | .submit => submit_input s
  | .aiOk r => check_ai_ok s r
  | .aiErr e => check_ai_err s e
  | .aiDisconnected => check_ai_disc s
  | .authOk _ email tier => check_auth_ok s email tier
  | .authErr e => check_auth_err s e
  | .authDisconnected => check_auth_disc s

/-- Run a sequence of foreground events. -/
def run (s : AppState) : List Ev → AppState
  | [] => s
  | e :: es => run (step s e) es

/-- `App::new` (tui/app.rs): one system prompt in the history, no
outstanding operation, empty input; the initial identity, availability
of the auth service and the welcome banner depend on the environment
and are parameters. -/
def init (email : Option String) (tier : String) (authAvail : Bool)
    (welcome : String) : AppState :=
  { conversation_history := [systemPrompt]
    messages := [welcome]
    input := ""
    is_loading := false
    ai_outstanding := false
    auth_outstanding := false
    user_email := email
    user_tier := tier
    auth_service_available := authAvail
    show_exit_animation := false }

/-- A state the app can actually be in: reachable from some initial
state by some event sequence. -/
def Reachable (s : AppState) : Prop :=
  ∃ email tier authAvail welcome evs, run (init email tier authAvail welcome) evs = s

/-- The state invariant the foreground loop maintains: the loading flag
is exactly "some mailbox is installed"; at most one mailbox at a time;
entry 0 of the history is the system prompt; a chat operation is only
outstanding while logged in; the history holds at most 22 entries, and
at most 21 while a chat operation is outstanding. -/
def Inv (s : AppState) : Prop :=
  s.is_loading = (s.ai_outstanding || s.auth_outstanding) ∧
  (s.ai_outstanding && s.auth_outstanding) = false ∧
  s.conversation_history.head? = some systemPrompt ∧
  (s.ai_outstanding = true → s.user_email.isSome = true) ∧
  s.conversation_history.length ≤ 22 ∧
  (s.ai_outstanding = true → s.conversation_history.length ≤ 21)

/-! ## Concrete fixtures for the closed witnesses and counterexamples -/

/-- An empty store. -/
def db0 : Db := { users := [], sessions := [] }

/-- A registration request. -/
def reqAlice : CreateUserRequest :=
  { email := "alice@example.com", password := "hunter22", username := some "alice" }

/-- The user row `register "s" 24 0 "salt1" "uid1" "sid1" db0 reqAlice`
creates. -/
def userAlice : User :=
  { id := "uid1", email := "alice@example.com", username := some "alice"
    display_name := none, password_hash := some (hash_password "salt1" "hunter22")
    tier := "free", created_at := 0, updated_at := 0, last_login_at := none
    is_active := true, email_verified := false }

/-- The token that registration issues. -/
def tokenAlice : Token := (generate_token "s" 24 0 userAlice).1

/-- The session row that registration stores. -/
def sessAlice : UserSession :=
  { id := "sid1", user_id := "uid1", token_hash := hash_token tokenAlice
    device_info := none, ip_address := none
    expires_at := 86400, created_at := 0, last_active_at := 0 }

/-- The store after the registration. -/
def dbAlice : Db := { users := [userAlice], sessions := [sessAlice] }

/-- The response of the registration. -/
def respAlice : AuthResponse :=
  { token := tokenAlice, user := userAlice, expires_at := 86400 }

/-- The user row after a login at time 0 updated `last_login_at`. -/
def userAliceLoggedIn : User := { userAlice with last_login_at := some 0 }

/-- The session row a subsequent login stores. -/
def sessAlice2 : UserSession :=
  { id := "sid2", user_id := "uid1", token_hash := hash_token tokenAlice
    device_info := none, ip_address := none
    expires_at := 86400, created_at := 0, last_active_at := 0 }

/-- The store after registration followed by a login. -/
def dbAlice2 : Db :=
  { users := [userAliceLoggedIn], sessions := [sessAlice, sessAlice2] }

/-- A deactivated user whose stored hash matches the password
`rightpw`. -/
def userBob : User :=
  { id := "uid2", email := "bob@example.com", username := some "bob"
    display_name := none, password_hash := some (hash_password "salt2" "rightpw")
    tier := "free", created_at := 0, updated_at := 0, last_login_at := none
    is_active := false, email_verified := false }

/-- A store holding only the deactivated user. -/
def dbBob : Db := { users := [userBob], sessions := [] }

/-- Eleven chat turns (submission then reply), starting from a
logged-in initial state. -/
def evsC5 : List Ev :=
  (List.replicate 11 [Ev.setInput "hi", Ev.submit, Ev.aiOk "ok"]).flatten

/-- A logged-in state with one chat operation outstanding. -/
def sC6 : AppState :=
  run (init (some "a@b.c") "free" true "w") [Ev.setInput "hello", Ev.submit]

/-- A state with one auth (login) operation outstanding. -/
def sC9 : AppState :=
  run (init none "free" true "w") [Ev.setInput "/login a@b.c pw", Ev.submit]

/-! ## Theorems -/

/-- C2: for every password P, `verify_password P (hash_password P)` is
true, and two calls of `hash_password` on P with distinct random salts
return two different encoded hash strings, both of which verify against
P. -/
theorem C2_password_roundtrip_and_distinct_salts (P s1 s2 : String) (hsalt : s1 ≠ s2) :
    verify_password P (hash_password s1 P) = true ∧
    verify_password P (hash_password s2 P) = true ∧
    hash_password s1 P ≠ hash_password s2 P := by
  refine ⟨?_, ?_, fun h => hsalt (congrArg PasswordHashStr.salt h)⟩ <;>
    simp [verify_password, hash_password]

/-- Witness for C2 at the concrete password `hunter22` and the distinct
salts `saltA`, `saltB`. -/
theorem C2_password_roundtrip_and_distinct_salts_witness :
    verify_password "hunter22" (hash_password "saltA" "hunter22") = true ∧
    verify_password "hunter22" (hash_password "saltB" "hunter22") = true ∧
    hash_password "saltA" "hunter22" ≠ hash_password "saltB" "hunter22" :=
  C2_password_roundtrip_and_distinct_salts "hunter22" "saltA" "saltB" (by decide)

/-- C3: verifying the token produced by `generate_token user` while it
is unexpired returns the claims, whose sub/email/tier equal the user's;
once current time passes `exp`, verification fails with the
expired-or-invalid-token error. -/
theorem C3_token_roundtrip_and_expiry (secret : String) (ttl now : Int) (user : User)
    (t : Token) (e now2 : Int) (hgen : generate_token secret ttl now user = (t, e)) :
    (now2 < e →
      verify_token secret now2 t = .ok t.claims ∧
      t.claims.sub = user.id ∧ t.claims.email = user.email ∧ t.claims.tier = user.tier) ∧
    (e ≤ now2 → verify_token secret now2 t = .error .expiredOrInvalidToken) := by
  simp only [generate_token] at hgen
  injection hgen with h1 h2
  subst h1
  subst h2
  constructor
  · intro hlt
    exact ⟨by simp [verify_token, hlt], rfl, rfl, rfl⟩
  · intro hge
    simp only [verify_token]
    rw [if_neg]
    rintro ⟨-, hlt⟩
    omega

/-- Witness for C3: the registration-time token of the fixture user,
verified at time 0 (fresh) and at time 86400 (its expiry). -/
theorem C3_token_roundtrip_and_expiry_witness :
    (verify_token "s" 0 tokenAlice = .ok tokenAlice.claims ∧
      tokenAlice.claims.sub = userAlice.id ∧
      tokenAlice.claims.email = userAlice.email ∧
      tokenAlice.claims.tier = userAlice.tier) ∧
    verify_token "s" 86400 tokenAlice = .error .expiredOrInvalidToken :=
  ⟨(C3_token_roundtrip_and_expiry "s" 24 0 userAlice tokenAlice 86400 0 rfl).1 (by decide),
   (C3_token_roundtrip_and_expiry "s" 24 0 userAlice tokenAlice 86400 86400 rfl).2 le_rfl⟩

/-- C10: `register` fails with the validation error exactly when the
requested email has no `@` character; any email containing `@` gets
past validation. -/
theorem C10_email_validation_is_at_sign (secret : String) (ttl now : Int)
    (salt uid sid : String) (db : Db) (req : CreateUserRequest) :
    register secret ttl now salt uid sid db req = .error .validationError ↔
      strContainsChar req.email '@' = false := by
  unfold register
  cases hat : strContainsChar req.email '@' with
  | false => simp
  | true =>
    simp only [Bool.not_true, Bool.false_eq_true, if_false]
    split
    · simp
    · simp

/-- Witness for C10: the single-character email `@` contains `@`, so it
passes validation (registering it does not fail with the validation
error). -/
theorem C10_email_validation_is_at_sign_witness :
    ¬(register "s" 24 0 "salt1" "u1" "sid1" db0
        { email := "@", password := "pw", username := none } = .error .validationError) :=
  fun h =>
    absurd ((C10_email_validation_is_at_sign "s" 24 0 "salt1" "u1" "sid1" db0
      { email := "@", password := "pw", username := none }).mp h) (by decide)

/-- C4 counterexample: an existing email with a wrong password does NOT
always fail with the invalid-credentials kind — on a deactivated
account the wrong password yields the (distinct, distinctly worded)
account-deactivated error, because the active check precedes password
verification. -/
theorem C4_counterexample_deactivated_account :
    login "s" 24 0 "sid9" dbBob { email := "bob@example.com", password := "wrongpw" }
      = .error .accountDeactivated ∧
    verify_password "wrongpw" (hash_password "salt2" "rightpw") = false ∧
    AuthError.accountDeactivated ≠ AuthError.invalidCredentials ∧
    AuthError.accountDeactivated.message ≠ AuthError.invalidCredentials.message := by
  exact ⟨rfl, by decide, by decide, by decide⟩

/-- C4 (amended): login with an unknown email, and login against an
ACTIVE existing account whose stored hash does not verify the supplied
password (or that has no stored hash), fail with the same
invalid-credentials kind, hence the same user-visible message. -/
theorem C4_enumeration_resistance (secret : String) (ttl now : Int) (sid : String)
    (db : Db) (req : LoginRequest)
    (h : db.users.find? (fun u => u.email == req.email) = none ∨
      ∃ u, db.users.find? (fun u' => u'.email == req.email) = some u ∧
        u.is_active = true ∧
        ∀ ph, u.password_hash = some ph → verify_password req.password ph = false) :
    login secret ttl now sid db req = .error .invalidCredentials := by
  unfold login
  rcases h with h | ⟨u, hfind, hact, hpw⟩
  · rw [h]
  · rw [hfind]
    simp only [hact, Bool.not_true, Bool.false_eq_true, if_false]
    cases hph : u.password_hash with
    | none => rfl
    | some ph => simp [hpw ph hph]

/-- Witness for C4: an unknown email on the empty store, and the wrong
password on the active fixture account, both produce the
invalid-credentials error. -/
theorem C4_enumeration_resistance_witness :
    login "s" 24 0 "sid1" db0 { email := "nouser@example.com", password := "x" }
      = .error .invalidCredentials ∧
    login "s" 24 0 "sid1" dbAlice { email := "alice@example.com", password := "wrong" }
      = .error .invalidCredentials :=
  ⟨C4_enumeration_resistance "s" 24 0 "sid1" db0 _ (Or.inl rfl),
   C4_enumeration_resistance "s" 24 0 "sid1" dbAlice _
    (Or.inr ⟨userAlice, rfl, rfl, fun ph hph => by
      cases hph
      decide⟩)⟩

/-- C8 counterexample: on the deactivated fixture account, a WRONG
password also yields the account-deactivated error (not
invalid-credentials, as the claim states), since `login` checks
`is_active` before verifying the password. -/
theorem C8_counterexample_wrong_password_deactivated :
    login "s" 24 0 "sid9" dbBob { email := "bob@example.com", password := "definitely-wrong" }
      = .error .accountDeactivated ∧
    verify_password "definitely-wrong" (hash_password "salt2" "rightpw") = false ∧
    AuthError.accountDeactivated ≠ AuthError.invalidCredentials := by
  exact ⟨rfl, by decide, by decide⟩

/-- C8 (amended): `login` fails with the account-deactivated error
exactly when the email belongs to an existing account with
`is_active = false` — regardless of whether the supplied password is
correct, because the active check precedes password verification. -/
theorem C8_deactivated_check_precedes_password (secret : String) (ttl now : Int)
    (sid : String) (db : Db) (req : LoginRequest) :
    login secret ttl now sid db req = .error .accountDeactivated ↔
      ∃ u, db.users.find? (fun u' => u'.email == req.email) = some u ∧
        u.is_active = false := by
  constructor
  · intro hcontra
    unfold login at hcontra
    cases hfind : db.users.find? (fun u' => u'.email == req.email) with
    | none =>
      rw [hfind] at hcontra
      cases hcontra
    | some u =>
      rw [hfind] at hcontra
      dsimp only at hcontra
      refine ⟨u, rfl, ?_⟩
      cases hact : u.is_active with
      | false => rfl
      | true =>
        rw [hact] at hcontra
        simp only [Bool.not_true, Bool.false_eq_true, if_false] at hcontra
        cases hph : u.password_hash with
        | none =>
          rw [hph] at hcontra
          injection hcontra with h
          exact absurd h (by decide)
        | some ph =>
          rw [hph] at hcontra
          dsimp only at hcontra
          by_cases hv : verify_password req.password ph = true
          · rw [if_neg (by simp [hv])] at hcontra
            cases hcontra
          · have hv' : verify_password req.password ph = false := by
              cases h : verify_password req.password ph
              · rfl
              · exact absurd h hv
            rw [if_pos (by rw [hv']; rfl)] at hcontra
            injection hcontra with h
            exact absurd h (by decide)
  · rintro ⟨u, hfind, hact⟩
    unfold login
    rw [hfind]
    dsimp only
    rw [hact]
    rfl

/-- Witness for C8: the deactivated fixture account triggers the
account-deactivated error whatever the supplied password. -/
theorem C8_deactivated_check_precedes_password_witness :
    login "s" 24 0 "sid9" dbBob { email := "bob@example.com", password := "anything" }
      = .error .accountDeactivated :=
  (C8_deactivated_check_precedes_password "s" 24 0 "sid9" dbBob
    { email := "bob@example.com", password := "anything" }).mpr ⟨userBob, rfl, rfl⟩

/-- Inversion of a successful registration: the issued token is signed
over its own claims, and the store gained exactly one session row,
holding the hash of the issued token. -/
theorem register_ok_inv {secret : String} {ttl now : Int} {salt uid sid : String}
    {db : Db} {req : CreateUserRequest} {resp : AuthResponse} {db1 : Db}
    (h : register secret ttl now salt uid sid db req = .ok (resp, db1)) :
    resp.token.sig = hs256Sign secret resp.token.claims ∧
    db1.sessions = db.sessions ++
      [{ id := sid, user_id := uid, token_hash := hash_token resp.token
         device_info := none, ip_address := none
         expires_at := resp.expires_at, created_at := now, last_active_at := now }] := by
  unfold register at h
  split at h
  · cases h
  · split at h
    · cases h
    · dsimp only at h
      injection h with h1
      injection h1 with h2 h3
      subst h2
      subst h3
      exact ⟨rfl, rfl⟩

/-- Inversion of a successful login: the issued token is signed over
its own claims, and the store gained exactly one session row, holding
the hash of the issued token. -/
theorem login_ok_inv {secret : String} {ttl now : Int} {sid : String}
    {db : Db} {req : LoginRequest} {resp : AuthResponse} {db1 : Db}
    (h : login secret ttl now sid db req = .ok (resp, db1)) :
    resp.token.sig = hs256Sign secret resp.token.claims ∧
    db1.sessions = db.sessions ++
      [{ id := sid, user_id := resp.user.id, token_hash := hash_token resp.token
         device_info := none, ip_address := none
         expires_at := resp.expires_at, created_at := now, last_active_at := now }] := by
  unfold login at h
  split at h
  · cases h
  · split at h
    · cases h
    · split at h
      · cases h
      · split at h
        · cases h
        · dsimp only at h
          injection h with h1
          injection h1 with h2 h3
          subst h2
          subst h3
          exact ⟨rfl, rfl⟩

/-- After `logout t`, no session row with the hash of `t` remains, so
the active-session lookup of `verify_session` finds nothing. -/
theorem find_after_logout (db : Db) (t : Token) (now : Int) :
    (logout db t).sessions.find?
      (fun s => s.token_hash == hash_token t && decide (now < s.expires_at)) = none := by
  rw [List.find?_eq_none]
  intro x hx
  simp only [logout, List.mem_filter, Bool.not_eq_true', beq_eq_false_iff_ne] at hx
  simp [hx.2]

/-- A token whose own signature and expiry still verify nevertheless
fails `verify_session` on a store from which `logout` deleted its
session rows. -/
theorem verify_session_after_logout (secret : String) (now : Int) (db : Db) (t : Token)
    (hsig : t.sig = hs256Sign secret t.claims) (hlt : now < t.claims.exp) :
    verify_session secret now (logout db t) t = .error .invalidOrExpiredSession := by
  have hv : verify_token secret now t = .ok t.claims := by
    unfold verify_token
    rw [if_pos ⟨hsig, hlt⟩]
  unfold verify_session
  rw [hv]
  dsimp only
  rw [find_after_logout]

/-- C1: for a token issued by `register` or `login`, once `logout` has
deleted the matching session row, `verify_session` fails with the
invalid-or-expired-session error, even though the token's own signature
and expiry claim still validate at that moment. -/
theorem C1_logout_revokes_validly_signed_token
    (secret : String) (ttl now0 : Int) (salt uid sid : String) (db : Db)
    (req : CreateUserRequest) (lreq : LoginRequest)
    (resp : AuthResponse) (db1 : Db) (now1 : Int)
    (hissue : register secret ttl now0 salt uid sid db req = .ok (resp, db1) ∨
      login secret ttl now0 sid db lreq = .ok (resp, db1))
    (hfresh : now1 < resp.token.claims.exp) :
    verify_token secret now1 resp.token = .ok resp.token.claims ∧
    verify_session secret now1 (logout db1 resp.token) resp.token
      = .error .invalidOrExpiredSession := by
  have hsig : resp.token.sig = hs256Sign secret resp.token.claims := by
    rcases hissue with h | h
    · exact (register_ok_inv h).1
    · exact (login_ok_inv h).1
  refine ⟨?_, verify_session_after_logout secret now1 db1 resp.token hsig hfresh⟩
  unfold verify_token
  rw [if_pos ⟨hsig, hfresh⟩]

/-- Witness for C1: registering the fixture user, logging its token
out, then verifying the (still unexpired, validly signed) token. -/
theorem C1_logout_revokes_validly_signed_token_witness :
    verify_token "s" 0 respAlice.token = .ok respAlice.token.claims ∧
    verify_session "s" 0 (logout dbAlice respAlice.token) respAlice.token
      = .error .invalidOrExpiredSession :=
  C1_logout_revokes_validly_signed_token "s" 24 0 "salt1" "uid1" "sid1" db0
    reqAlice { email := "", password := "" } respAlice dbAlice 0
    (Or.inl rfl) (by decide)

/-- C7: a successful `register` or `login` adds exactly one session
row, whose `token_hash` is the one-way hash of the issued token; every
other row was already in the store, and the hash is never the raw token
string itself. -/
theorem C7_sessions_hold_only_token_hashes
    (secret : String) (ttl now : Int) (salt uid sid : String) (db : Db)
    (req : CreateUserRequest) (resp : AuthResponse) (db1 : Db)
    (nowL : Int) (sidL : String) (dbL : Db) (lreq : LoginRequest)
    (resp2 : AuthResponse) (db2 : Db) :
    (register secret ttl now salt uid sid db req = .ok (resp, db1) →
      ∀ srow ∈ db1.sessions, srow ∈ db.sessions ∨ srow.token_hash = hash_token resp.token) ∧
    (login secret ttl nowL sidL dbL lreq = .ok (resp2, db2) →
      ∀ srow ∈ db2.sessions, srow ∈ dbL.sessions ∨ srow.token_hash = hash_token resp2.token) ∧
    (∀ t : Token, hash_token t ≠ tokenSerialize t) := by
  refine ⟨?_, ?_, ?_⟩
  · intro h srow hmem
    rw [(register_ok_inv h).2] at hmem
    rcases List.mem_append.mp hmem with hm | hm
    · exact Or.inl hm
    · rw [List.mem_singleton.mp hm]
      exact Or.inr rfl
  · intro h srow hmem
    rw [(login_ok_inv h).2] at hmem
    rcases List.mem_append.mp hmem with hm | hm
    · exact Or.inl hm
    · rw [List.mem_singleton.mp hm]
      exact Or.inr rfl
  · intro t h
    have h2 := congrArg (fun s => s.data.length) h
    simp only [hash_token, sha256Base64, String.data_append, List.length_append] at h2
    have e1 : ("b64sha256(" : String).data.length = 10 := rfl
    have e2 : (")" : String).data.length = 1 := rfl
    rw [e1, e2] at h2
    omega

/-- Witness for C7: the session rows after the fixture registration and
the subsequent login all hold `hash_token` of the issued token, and
that hash differs from the raw token string. -/
theorem C7_sessions_hold_only_token_hashes_witness :
    (∀ srow ∈ dbAlice.sessions,
      srow ∈ db0.sessions ∨ srow.token_hash = hash_token respAlice.token) ∧
    (∀ srow ∈ dbAlice2.sessions,
      srow ∈ dbAlice.sessions ∨ srow.token_hash = hash_token respAlice.token) ∧
    hash_token tokenAlice ≠ tokenSerialize tokenAlice := by
  have h := C7_sessions_hold_only_token_hashes "s" 24 0 "salt1" "uid1" "sid1" db0
    reqAlice respAlice dbAlice 0 "sid2" dbAlice
    { email := "alice@example.com", password := "hunter22" } respAlice dbAlice2
  exact ⟨h.1 rfl, h.2.1 rfl, h.2.2 tokenAlice⟩

/-- The trimmed history never exceeds 21 entries. -/
theorem trimHistory_length_le (l : List ChatMessage) : (trimHistory l).length ≤ 21 := by
  unfold trimHistory
  split
  · simp only [List.length_append, List.length_take, List.length_drop]
    omega
  · omega

/-- Trimming keeps the head of a nonempty history. -/
theorem trimHistory_head? (l : List ChatMessage) (h : l ≠ []) :
    (trimHistory l).head? = l.head? := by
  unfold trimHistory
  split
  · cases l with
    | nil => exact absurd rfl h
    | cons a t => simp
  · rfl

/-- The head of an append with a nonempty left part. -/
theorem head?_append_left {α : Type} (l l' : List α) (h : l ≠ []) :
    (l ++ l').head? = l.head? := by
  cases l with
  | nil => exact absurd rfl h
  | cons a t => rfl

/-- Every initial state satisfies the invariant. -/
theorem inv_init (email : Option String) (tier : String) (authAvail : Bool)
    (welcome : String) : Inv (init email tier authAvail welcome) := by
  refine ⟨rfl, rfl, rfl, ?_, ?_, ?_⟩
  · intro hc
    cases hc
  · simp [init]
  · intro hc
    cases hc

/-- Every foreground step preserves the invariant. -/
theorem inv_step (s : AppState) (e : Ev) (h : Inv s) : Inv (step s e) := by
  obtain ⟨h1, h2, h3, h4, h5, h6⟩ := h
  have hne : s.conversation_history ≠ [] := by
    intro hnil
    rw [hnil] at h3
    cases h3
  cases e with
  | setInput x => exact ⟨h1, h2, h3, h4, h5, h6⟩
  | submit =>
    dsimp only [step, submit_input]
    split
    · exact ⟨h1, h2, h3, h4, h5, h6⟩
    · next hcond =>
      rw [Bool.not_eq_true, Bool.or_eq_false_iff] at hcond
      have hload : s.is_loading = false := hcond.2
      have hai : s.ai_outstanding = false := by
        rw [hload] at h1
        exact (Bool.or_eq_false_iff.mp h1.symm).1
      have hauth : s.auth_outstanding = false := by
        rw [hload] at h1
        exact (Bool.or_eq_false_iff.mp h1.symm).2
      split
      · next cmd hcmd =>
        cases cmd with
        | login em pw =>
          dsimp only [handle_slash_command]
          split
          · exact ⟨h1, h2, h3, h4, h5, h6⟩
          · exact ⟨by simp, by simp [hai], h3, h4, h5, h6⟩
        | register em un pw =>
          dsimp only [handle_slash_command]
          split
          · exact ⟨h1, h2, h3, h4, h5, h6⟩
          · exact ⟨by simp, by simp [hai], h3, h4, h5, h6⟩
        | logout =>
          exact ⟨h1, h2, h3,
            fun hc => absurd (hai.symm.trans hc) (by decide), h5, h6⟩
        | upgrade => exact ⟨h1, h2, h3, h4, h5, h6⟩
        | help => exact ⟨h1, h2, h3, h4, h5, h6⟩
        | quit => exact ⟨h1, h2, h3, h4, h5, h6⟩
        | clear => exact ⟨h1, h2, h3, h4, h5, h6⟩
        | status => exact ⟨h1, h2, h3, h4, h5, h6⟩
        | unknown c => exact ⟨h1, h2, h3, h4, h5, h6⟩
      · next hcmd =>
        split
        · exact ⟨h1, h2, h3, h4, h5, h6⟩
        · next hemail =>
          refine ⟨by simp, by simp [hauth], ?_, ?_, ?_, ?_⟩
          · rw [trimHistory_head? _ (by simp), head?_append_left _ _ hne]
            exact h3
          · intro _
            cases ho : s.user_email with
            | none => rw [ho] at hemail; exact absurd rfl hemail
            | some v => rfl
          · exact le_trans (trimHistory_length_le _) (by omega)
          · intro _
            exact trimHistory_length_le _
  | aiOk r =>
    dsimp only [step, check_ai_ok]
    split
    · next hout =>
      have hauth : s.auth_outstanding = false := by
        rw [hout] at h2
        simpa using h2
      refine ⟨by simp [hauth], by simp, ?_, ?_, ?_, ?_⟩
      · rw [head?_append_left _ _ hne]
        exact h3
      · intro hc
        cases hc
      · have := h6 hout
        simp only [List.length_append, List.length_cons, List.length_nil]
        omega
      · intro hc
        cases hc
    · exact ⟨h1, h2, h3, h4, h5, h6⟩
  | aiErr e' =>
    dsimp only [step, check_ai_err]
    split
    · next hout =>
      have hauth : s.auth_outstanding = false := by
        rw [hout] at h2
        simpa using h2
      refine ⟨by simp [hauth], by simp, h3, ?_, h5, ?_⟩
      · intro hc
        cases hc
      · intro hc
        cases hc
    · exact ⟨h1, h2, h3, h4, h5, h6⟩
  | aiDisconnected =>
    dsimp only [step, check_ai_disc]
    split
    · next hout =>
      have hauth : s.auth_outstanding = false := by
        rw [hout] at h2
        simpa using h2
      refine ⟨by simp [hauth], by simp, h3, ?_, h5, ?_⟩
      · intro hc
        cases hc
      · intro hc
        cases hc
    · exact ⟨h1, h2, h3, h4, h5, h6⟩
  | authOk tk em ti =>
    dsimp only [step, check_auth_ok]
    split
    · next hout =>
      have hai : s.ai_outstanding = false := by
        rw [hout] at h2
        simpa using h2
      exact ⟨by simp [hai], by simp, h3, fun _ => rfl, h5, h6⟩
    · exact ⟨h1, h2, h3, h4, h5, h6⟩
  | authErr e' =>
    dsimp only [step, check_auth_err]
    split
    · next hout =>
      have hai : s.ai_outstanding = false := by
        rw [hout] at h2
        simpa using h2
      exact ⟨by simp [hai], by simp, h3, h4, h5, h6⟩
    · exact ⟨h1, h2, h3, h4, h5, h6⟩
  | authDisconnected =>
    dsimp only [step, check_auth_disc]
    split
    · next hout =>
      have hai : s.ai_outstanding = false := by
        rw [hout] at h2
        simpa using h2
      exact ⟨by simp [hai], by simp, h3, h4, h5, h6⟩
    · exact ⟨h1, h2, h3, h4, h5, h6⟩

/-- Running any event sequence preserves the invariant. -/
theorem run_inv (s0 : AppState) (evs : List Ev) (h : Inv s0) : Inv (run s0 evs) := by
  induction evs generalizing s0 with
  | nil => exact h
  | cons e es ih => exact ih _ (inv_step s0 e h)

/-- Every reachable state satisfies the invariant. -/
theorem reachable_inv (s : AppState) (h : Reachable s) : Inv s := by
  obtain ⟨email, tier, authAvail, welcome, evs, rfl⟩ := h
  exact run_inv _ _ (inv_init email tier authAvail welcome)

/-- While `is_loading` is set, `submit_input` is a full no-op. -/
theorem submit_noop (s : AppState) (hload : s.is_loading = true) :
    submit_input s = s := by
  unfold submit_input
  rw [if_pos (by rw [hload]; exact Bool.or_true _)]

/-- A quiescent, logged-in state with nonempty non-command input
dispatches a chat operation on submit. -/
theorem submit_dispatches_chat (s : AppState)
    (hload : s.is_loading = false) (hne2 : strTrim s.input ≠ "")
    (hcmd : parseSlash (strTrim s.input) = none)
    (hemail : s.user_email.isNone = false) :
    (submit_input s).ai_outstanding = true := by
  have hc : ¬((strTrim s.input == "" || s.is_loading) = true) := by
    rw [hload, Bool.or_false]
    simp only [beq_iff_eq]
    exact hne2
  unfold submit_input
  rw [if_neg hc, hcmd]
  dsimp only
  rw [if_neg (by rw [hemail]; exact Bool.false_ne_true)]

/-- C5 counterexample: after eleven dispatched chat turns (each a user
submission followed by the assistant reply), the conversation history
holds 22 entries — the assistant reply is appended without re-trimming,
so the claimed 21-entry bound is exceeded. -/
theorem C5_counterexample_window_reaches_22 :
    (run (init (some "a@b.c") "free" true "w") evsC5).conversation_history.length = 22 ∧
    ¬((run (init (some "a@b.c") "free" true "w") evsC5).conversation_history.length ≤ 21) :=
  ⟨by decide, by decide⟩

/-- C5 (amended): in every reachable state the conversation history
holds at most 22 entries (at most 21 while a chat request is
outstanding, i.e. right after a user submission was trimmed; the
assistant reply can add one more), and entry 0 is always the original
system prompt. -/
theorem C5_window_bound_and_system_prompt (s : AppState) (h : Reachable s) :
    s.conversation_history.length ≤ 22 ∧
    s.conversation_history.head? = some systemPrompt ∧
    (s.ai_outstanding = true → s.conversation_history.length ≤ 21) := by
  obtain ⟨-, -, h3, -, h5, h6⟩ := reachable_inv s h
  exact ⟨h5, h3, h6⟩

/-- Witness for C5 at the concrete eleven-turn trace. -/
theorem C5_window_bound_and_system_prompt_witness :
    (run (init (some "a@b.c") "free" true "w") evsC5).conversation_history.length ≤ 22 ∧
    (run (init (some "a@b.c") "free" true "w") evsC5).conversation_history.head?
      = some systemPrompt ∧
    ((run (init (some "a@b.c") "free" true "w") evsC5).ai_outstanding = true →
      (run (init (some "a@b.c") "free" true "w") evsC5).conversation_history.length ≤ 21) :=
  C5_window_bound_and_system_prompt _ ⟨some "a@b.c", "free", true, "w", evsC5, rfl⟩

/-- C6: while a chat operation is outstanding, submitting is a
caller-visible no-op (the state, input box included, is unchanged and
nothing is dispatched); once the foreground poll has consumed the
result and cleared the mailbox, a fresh non-command submission
dispatches a new chat operation. -/
theorem C6_at_most_one_chat_dispatch (s : AppState) (h : Reachable s)
    (hout : s.ai_outstanding = true) :
    step s .submit = s ∧
    ∀ r, (step s (.aiOk r)).is_loading = false ∧
      (step s (.aiOk r)).ai_outstanding = false ∧
      ∀ x, strTrim x ≠ "" → parseSlash (strTrim x) = none →
        (step (step (step s (.aiOk r)) (.setInput x)) .submit).ai_outstanding = true := by
  obtain ⟨h1, h2, -, h4, -, -⟩ := reachable_inv s h
  have hload : s.is_loading = true := by rw [h1, hout]; rfl
  have hauth : s.auth_outstanding = false := by
    rw [hout] at h2
    simpa using h2
  have hemail : s.user_email.isSome = true := h4 hout
  have hnone : s.user_email.isNone = false := by
    cases ho : s.user_email with
    | none => rw [ho] at hemail; cases hemail
    | some v => rfl
  refine ⟨submit_noop s hload, fun r => ⟨?_, ?_, fun x hx hp => ?_⟩⟩
  · dsimp only [step, check_ai_ok]
    rw [if_pos hout]
  · dsimp only [step, check_ai_ok]
    rw [if_pos hout]
  · have e1 : (step (step s (.aiOk r)) (.setInput x)).is_loading = false := by
      dsimp only [step, check_ai_ok]
      rw [if_pos hout]
    have e2 : (step (step s (.aiOk r)) (.setInput x)).input = x := rfl
    have e3 : (step (step s (.aiOk r)) (.setInput x)).user_email = s.user_email := by
      dsimp only [step, check_ai_ok]
      rw [if_pos hout]
    exact submit_dispatches_chat _ e1 (by rw [e2]; exact hx)
      (by rw [e2]; exact hp) (by rw [e3]; exact hnone)

/-- Witness for C6: the fixture state with one chat operation
outstanding; consuming the reply re-opens the gate and the next
submission dispatches. -/
theorem C6_at_most_one_chat_dispatch_witness :
    step sC6 .submit = sC6 ∧
    (step sC6 (.aiOk "reply")).is_loading = false ∧
    (step sC6 (.aiOk "reply")).ai_outstanding = false ∧
    (step (step (step sC6 (.aiOk "reply")) (.setInput "next")) .submit).ai_outstanding
      = true := by
  have h := C6_at_most_one_chat_dispatch sC6
    ⟨some "a@b.c", "free", true, "w", [Ev.setInput "hello", Ev.submit], rfl⟩ (by decide)
  exact ⟨h.1, (h.2 "reply").1, (h.2 "reply").2.1,
    (h.2 "reply").2.2 "next" (by decide) (by decide)⟩

/-- C9: the single `is_loading` flag gates all input submission — while
any chat or auth operation is outstanding, the flag is set and every
submitted input (whatever the input box holds) is a no-op. -/
theorem C9_is_loading_gates_all_submission (s : AppState) (h : Reachable s)
    (hout : s.ai_outstanding = true ∨ s.auth_outstanding = true) :
    s.is_loading = true ∧
    ∀ x, step (step s (.setInput x)) .submit = step s (.setInput x) := by
  obtain ⟨h1, -, -, -, -, -⟩ := reachable_inv s h
  have hload : s.is_loading = true := by
    rcases hout with h' | h'
    · rw [h1, h']; rfl
    · rw [h1, h', Bool.or_true]
  exact ⟨hload, fun x => submit_noop _ hload⟩

/-- Witness for C9: the fixture state with a login operation
outstanding rejects an arbitrary submitted input. -/
theorem C9_is_loading_gates_all_submission_witness :
    sC9.is_loading = true ∧
    step (step sC9 (.setInput "hello there")) .submit = step sC9 (.setInput "hello there") := by
  have h := C9_is_loading_gates_all_submission sC9
    ⟨none, "free", true, "w", [Ev.setInput "/login a@b.c pw", Ev.submit], rfl⟩
    (Or.inr (by decide))
  exact ⟨h.1, h.2 "hello there"⟩

end QHub
